import Mathlib

/-!
Verification development for the REALTIME-WIFI-VIS telemetry core
(ESP8266 Hub collector + Satellite node sketches).

Shallow embedding conventions:
* C `int` values are modelled as `Int` (the guards in the code keep every
  stored value small, so no wrap-around arises on the modelled paths).
* The ESP-NOW payload is a `List Nat` of bytes (each < 256 at the call
  sites we use); a C `int` field is decoded little-endian, two's
  complement.  `memcpy(&incoming, incomingData, sizeof(incoming))` copies
  a fixed number of bytes regardless of the delivered length; for a
  payload shorter than the struct the C code overreads adjacent memory
  (undefined behaviour) — the model pads with zero bytes, and no theorem
  below depends on that padding (counterexamples use well-defined
  oversized payloads only).
* `String(incoming.mac)` reads the `char[18]` buffer up to the first NUL;
  the model truncates at the first zero byte within the 18 bytes.
* Arduino runtime semantics: `setup()` runs once, then `loop()` runs
  forever.  An early `return` inside `setup()` only skips the remainder
  of `setup()`; the runtime still invokes `loop()` repeatedly.
-/

/-- Wire structure `struct_message { int id; int rssi; char mac[18]; }`
shared by Hub and Satellite, at the decoded level (mac as the string the
Hub's `String(incoming.mac)` constructor produces). -/
structure struct_message where
  id : Int
  rssi : Int
  mac : String
deriving DecidableEq

/-- Hub global state: `int nodeSignals[11]; String nodeMacs[11];`
modelled as total functions on the index (only indices 0..10 are ever
read or written by the code). -/
structure HubState where
  nodeSignals : Nat → Int
  nodeMacs : Nat → String

/-- Hub table right after a successful `setup()`: the init loop writes
`-100` and `"00:00:00:00:00:00"` into every slot 0..10. -/
def initHub : HubState :=
  { nodeSignals := fun _ => -100
    nodeMacs := fun _ => "00:00:00:00:00:00" }

/-- Hub globals before `setup()` completes the init loop: C++ zero
initialisation gives `0` for every `int` and the empty `String`.  This is
the table `loop()` sees when `setup()` returned early on a failed
`esp_now_init()`. -/
def hubGlobalsDefault : HubState :=
  { nodeSignals := fun _ => 0
    nodeMacs := fun _ => "" }

/-- `OnDataRecv` body after the `memcpy`, at the decoded-record level:
accept iff `2 <= id <= 10` and `rssi < 0`, overwriting both arrays at
index `id`; otherwise leave the globals untouched. -/
def OnDataRecv (st : HubState) (m : struct_message) : HubState :=
  if 2 ≤ m.id ∧ m.id ≤ 10 then
    if m.rssi < 0 then
      { nodeSignals := fun j => if j = m.id.toNat then m.rssi else st.nodeSignals j
        nodeMacs := fun j => if j = m.id.toNat then m.mac else st.nodeMacs j }
    else st
  else st

/-- Byte `i` of a payload; out-of-range reads give the model's padding 0. -/
def byteAt (p : List Nat) (i : Nat) : Nat := p.getD i 0

/-- Little-endian two's-complement decode of a 4-byte C `int` at `off`. -/
def decodeI32 (p : List Nat) (off : Nat) : Int :=
  let u := byteAt p off + 256 * byteAt p (off + 1) + 65536 * byteAt p (off + 2)
    + 16777216 * byteAt p (off + 3)
  if u < 2147483648 then (u : Int) else (u : Int) - 4294967296

/-- `String(incoming.mac)`: the `char[18]` buffer at offset 8, read up to
the first NUL byte. -/
def decodeMac (p : List Nat) : String :=
  ⟨(((p.drop 8).take 18).takeWhile (fun b => b ≠ 0)).map Char.ofNat⟩

/-- Effect of `memcpy(&incoming, incomingData, sizeof(incoming))`: the
fields of `incoming` after the copy. -/
def decodeMessage (p : List Nat) : struct_message :=
  { id := decodeI32 p 0, rssi := decodeI32 p 4, mac := decodeMac p }

/-- The full receive callback `OnDataRecv(u8 *mac_addr, u8 *incomingData,
u8 len)`: it copies the struct out of the payload and filters on the
decoded fields.  Neither `mac_addr` (the sender's hardware address) nor
`len` is inspected anywhere in its body. -/
def OnDataRecvRaw (st : HubState) (mac_addr : List Nat) (incomingData : List Nat)
    (len : Nat) : HubState :=
  OnDataRecv st (decodeMessage incomingData)

/-- `const char* targetSSID = "XXX";` -/
def targetSSID : String := "XXX"

/-- The scan-and-search prefix of `loop()`: `baseRSSI = -100`, then the
first scan entry whose SSID equals `targetSSID` sets `baseRSSI` and
breaks.  A scan result is an ordered list of (SSID, RSSI) pairs. -/
def scanBaseRSSI (scan : List (String × Int)) : Int :=
  match scan.find? (fun e => e.1 = targetSSID) with
  | some e => e.2
  | none => -100

/-- The CSV construction of `loop()`: start from `"DATA"`, then for
`i = 1..10` append `","` and either `String(baseRSSI)+","+WiFi.macAddress()`
(for `i == 1`) or `String(nodeSignals[i])+","+nodeMacs[i]`. -/
def outputLine (st : HubState) (baseRSSI : Int) (ownMac : String) : String :=
  [1, 2, 3, 4, 5, 6, 7, 8, 9, 10].foldl
    (fun output i =>
      output ++ "," ++
        (if i = 1 then toString baseRSSI ++ "," ++ ownMac
         else toString (st.nodeSignals i) ++ "," ++ st.nodeMacs i))
    "DATA"

/-- One Hub `loop()` iteration: scan, build the CSV line, print it.  The
returned pair is (emitted line, table afterwards); the body mutates no
global, so the table component is the input table. -/
def hubCycle (st : HubState) (scan : List (String × Int)) (ownMac : String) :
    String × HubState :=
  (outputLine st (scanBaseRSSI scan) ownMac, st)

/-- A burst of deliveries handled back-to-back by the receive callback. -/
def runRecv (st : HubState) (msgs : List struct_message) : HubState :=
  msgs.foldl OnDataRecv st

/-- The 21 logical fields of one output line, in emission order: the tag,
then for each identity the reading string and the address string.  The
line the code emits is exactly these fields joined with commas
(`outputLine_eq_joinFields` below). -/
def outputFields (st : HubState) (baseRSSI : Int) (ownMac : String) : List String :=
  "DATA" ::
    ([1, 2, 3, 4, 5, 6, 7, 8, 9, 10].map
      (fun i =>
        if i = 1 then [toString baseRSSI, ownMac]
        else [toString (st.nodeSignals i), st.nodeMacs i])).flatten

/-- Join a field list with comma separators (the inverse of CSV split). -/
def joinFields : List String → String
  | [] => ""
  | [x] => x
  | x :: y :: xs => x ++ "," ++ joinFields (y :: xs)

/-- Comma-splitting, accumulator form (current field collected reversed). -/
def splitFieldsAux : List Char → List Char → List String
  | acc, [] => [String.mk acc.reverse]
  | acc, c :: cs =>
    if c = ',' then String.mk acc.reverse :: splitFieldsAux [] cs
    else splitFieldsAux (c :: acc) cs

/-- The comma-separated fields of a line, as the downstream dashboard's
CSV split sees them. -/
def fieldsOf (s : String) : List String := splitFieldsAux [] s.data

example : fieldsOf "DATA,-42,AA:BB" = ["DATA", "-42", "AA:BB"] := by decide
example : (OnDataRecv initHub ⟨5, -42, "AA:BB:CC:DD:EE:FF"⟩).nodeSignals 5 = -42 := by decide

/-- `const int NODE_ID = 9;` (satellite sketch). -/
def NODE_ID : Int := 9

/-- `uint8_t collectorMAC[] = {0,0,0,0,0,0};` -/
def collectorMAC : List Nat := [0, 0, 0, 0, 0, 0]

/-- Observable actions of one satellite `loop()` body. -/
inductive SatAction where
  | send (dest : List Nat) (payload : struct_message)
  | logLine (s : String)
deriving DecidableEq

/-- `WiFi.macAddress().toCharArray(myData.mac, 18)`: copies at most 17
characters plus a terminating NUL into the 18-byte buffer. -/
def toCharArray17 (s : String) : String := String.mk (s.data.take 17)

/-- One satellite `loop()` iteration: scan (an ordered list of RSSI
values, strongest first), take `WiFi.RSSI(0)` if `n > 0` else `-100`,
fill `myData`, call `esp_now_send` once, then log.  The satellite scan is
modelled as the RSSI list only, since the satellite never inspects SSIDs. -/
def satelliteLoopBody (scan : List Int) (ownMac : String) : List SatAction :=
  let strongestRSSI : Int := if scan.length > 0 then scan.getD 0 (-100) else -100
  let myData : struct_message :=
    { id := NODE_ID, rssi := strongestRSSI, mac := toCharArray17 ownMac }
  [SatAction.send collectorMAC myData,
   SatAction.logLine
     ("Node " ++ toString NODE_ID ++ " reporting RSSI: " ++ toString strongestRSSI
       ++ " dBm to Hub")]

/-- Whether a `SatAction` is a send attempt. -/
def SatAction.isSend : SatAction → Bool
  | SatAction.send _ _ => true
  | SatAction.logLine _ => false

/-- Hub `setup()` outcome: on `esp_now_init() == 0` the callback is
registered and the init loop writes the sentinel pair into every slot;
on failure `setup()` returns early, leaving the zero-initialised globals
and no registered callback. -/
structure HubBootResult where
  table : HubState
  recvRegistered : Bool

/-- Hub `setup()` as a function of whether `esp_now_init()` succeeded. -/
def hubSetup (espNowInitOk : Bool) : HubBootResult :=
  if espNowInitOk then { table := initHub, recvRegistered := true }
  else { table := hubGlobalsDefault, recvRegistered := false }

/-- Hub execution after `setup()`, under Arduino semantics: `loop()` runs
on every tick regardless of `setup()`'s early return.  Each tick first
handles the burst of deliveries that arrived since the previous tick
(only if the receive callback was registered), then performs one
`loop()` body.  Returns the emitted lines in order. -/
def hubRunAux (registered : Bool) (ownMac : String) :
    HubState → List (List struct_message × List (String × Int)) → List String
  | _, [] => []
  | st, (msgs, scan) :: rest =>
    let st' := if registered then runRecv st msgs else st
    (hubCycle st' scan ownMac).1 :: hubRunAux registered ownMac (hubCycle st' scan ownMac).2 rest

/-- Whole-device Hub run: boot, then the tick sequence. -/
def hubRun (espNowInitOk : Bool) (events : List (List struct_message × List (String × Int)))
    (ownMac : String) : List String :=
  hubRunAux (hubSetup espNowInitOk).recvRegistered ownMac (hubSetup espNowInitOk).table events

/-- Whole-device Satellite run: the satellite `loop()` body reads no
state written by `setup()` (a failed `esp_now_init` only skips peer
registration), so under Arduino semantics every tick performs the same
scan-and-send body regardless of boot success. -/
def satRun (espNowInitOk : Bool) (scans : List (List Int)) (ownMac : String) :
    List (List SatAction) :=
  scans.map (fun scan => satelliteLoopBody scan ownMac)

/-- Modelled from the spec: "PeerAddress string is exactly the canonical
colon-separated hex form, fixed length" — 17 characters, colons at
positions 2, 5, 8, 11, 14, hex digits elsewhere.  (The repository has no
validation code for this; the predicate formalises the spec's wording so
that claims about address-field well-formedness can be stated.) -/
def isCanonicalMac (s : String) : Bool :=
  s.data.length = 17 &&
    (List.range 17).all (fun k =>
      if k % 3 = 2 then s.data.getD k ' ' = ':'
      else
        let c := s.data.getD k ' '
        (('0' ≤ c && c ≤ '9') || ('a' ≤ c && c ≤ 'f') || ('A' ≤ c && c ≤ 'F')))

example : isCanonicalMac "AA:BB:CC:DD:EE:FF" = true := by decide
example : isCanonicalMac "00:00:00:00:00:00" = true := by decide
example : isCanonicalMac "HELLO,WORLD" = false := by decide

/-! ### Helper lemmas -/

/-- The CSV line built by `loop()`'s fold is the comma-join of the 21
logical fields. -/
theorem outputLine_eq_joinFields (st : HubState) (r : Int) (ownMac : String) :
    outputLine st r ownMac = joinFields (outputFields st r ownMac) := by
  simp [outputLine, outputFields, joinFields, String.append_assoc]
  rw [← String.append_assoc, show ("DATA" ++ "," : String) = "DATA," from rfl]

/-- The logical field list always has exactly 21 entries. -/
theorem outputFields_length (st : HubState) (r : Int) (ownMac : String) :
    (outputFields st r ownMac).length = 21 := rfl

/-- `Nat.digitChar` never yields a comma. -/
theorem digitChar_ne_comma (k : Nat) : Nat.digitChar k ≠ ',' := by
  rcases Nat.lt_or_ge k 16 with hk | hk
  · interval_cases k <;> decide
  · have h : Nat.digitChar k = '*' := by
      unfold Nat.digitChar
      repeat rw [if_neg (by omega)]
    rw [h]; decide

/-- `Nat.toDigitsCore` only prepends digit characters. -/
theorem toDigitsCore_no_comma (b fuel n : Nat) (ds : List Char)
    (h : ',' ∉ ds) : ',' ∉ Nat.toDigitsCore b fuel n ds := by
  induction fuel generalizing n ds with
  | zero => simpa [Nat.toDigitsCore] using h
  | succ fuel ih =>
    have hcons : ',' ∉ Nat.digitChar (n % b) :: ds := by
      intro hc
      rcases List.mem_cons.mp hc with h1 | h1
      · exact digitChar_ne_comma _ h1.symm
      · exact h h1
    by_cases hz : n / b = 0
    · simpa [Nat.toDigitsCore, hz] using hcons
    · simpa [Nat.toDigitsCore, hz] using ih (n / b) _ hcons

/-- The decimal rendering of a natural number contains no comma. -/
theorem natRepr_no_comma (n : Nat) : ',' ∉ (Nat.repr n).data := by
  unfold Nat.repr Nat.toDigits
  simpa [List.asString] using toDigitsCore_no_comma 10 (n + 1) n [] (by simp)

/-- The decimal rendering of an integer contains no comma. -/
theorem intToString_no_comma (n : Int) : ',' ∉ (toString n).data := by
  show ',' ∉ (Int.repr n).data
  cases n with
  | ofNat m => simpa [Int.repr] using natRepr_no_comma m
  | negSucc m =>
    intro hc
    have h2 : ',' ∈ ('-' :: (Nat.repr (m + 1)).data) := by
      simpa [Int.repr, String.data_append] using hc
    rcases List.mem_cons.mp h2 with h1 | h1
    · cases h1
    · exact natRepr_no_comma _ h1

/-- Splitting a comma-free character list yields that single field. -/
theorem splitFieldsAux_no_comma (xs : List Char) (acc : List Char) (h : ',' ∉ xs) :
    splitFieldsAux acc xs = [String.mk (acc.reverse ++ xs)] := by
  induction xs generalizing acc with
  | nil => simp [splitFieldsAux]
  | cons c cs ih =>
    have hc : c ≠ ',' := fun he => h (by simp [he])
    have hcs : ',' ∉ cs := fun he => h (List.mem_cons_of_mem _ he)
    simp [splitFieldsAux, hc, ih (c :: acc) hcs]

/-- Splitting past the first comma peels off the first field. -/
theorem splitFieldsAux_append (xs ys : List Char) (acc : List Char) (h : ',' ∉ xs) :
    splitFieldsAux acc (xs ++ ',' :: ys) =
      String.mk (acc.reverse ++ xs) :: splitFieldsAux [] ys := by
  induction xs generalizing acc with
  | nil => simp [splitFieldsAux]
  | cons c cs ih =>
    have hc : c ≠ ',' := fun he => h (by simp [he])
    have hcs : ',' ∉ cs := fun he => h (List.mem_cons_of_mem _ he)
    simp [splitFieldsAux, hc, ih (c :: acc) hcs]

/-- Comma-splitting inverts comma-joining on comma-free fields. -/
theorem fieldsOf_joinFields (x : String) (l : List String)
    (hx : ',' ∉ x.data) (hl : ∀ f ∈ l, ',' ∉ f.data) :
    fieldsOf (joinFields (x :: l)) = x :: l := by
  induction l generalizing x with
  | nil =>
    show splitFieldsAux [] x.data = [x]
    rw [splitFieldsAux_no_comma _ _ hx]
    cases x
    simp
  | cons y ys ih =>
    have hdata : (joinFields (x :: y :: ys)).data =
        x.data ++ ',' :: (joinFields (y :: ys)).data := by
      show (x ++ "," ++ joinFields (y :: ys)).data = _
      simp [String.data_append]
    show splitFieldsAux [] (joinFields (x :: y :: ys)).data = x :: y :: ys
    rw [hdata, splitFieldsAux_append _ _ _ hx]
    have := ih y (hl y (by simp)) (fun f hf => hl f (by simp [hf]))
    rw [show splitFieldsAux [] (joinFields (y :: ys)).data = fieldsOf (joinFields (y :: ys))
      from rfl, this]
    cases x
    simp

/-- The receive handler leaves slot `i` alone unless the delivered record
is accepted and claims exactly identity `i`. -/
theorem OnDataRecv_preserve (st : HubState) (m : struct_message) (i : Nat)
    (h : ¬(m.id = (i : Int) ∧ 2 ≤ m.id ∧ m.id ≤ 10 ∧ m.rssi < 0)) :
    (OnDataRecv st m).nodeSignals i = st.nodeSignals i ∧
      (OnDataRecv st m).nodeMacs i = st.nodeMacs i := by
  unfold OnDataRecv
  split
  · next hid =>
    obtain ⟨h2, h10⟩ := hid
    split
    · next hr =>
      have hne : m.id ≠ (i : Int) := fun he => h ⟨he, h2, h10, hr⟩
      have hton : ¬(i = m.id.toNat) := by omega
      simp [hton]
    · exact ⟨rfl, rfl⟩
  · exact ⟨rfl, rfl⟩

/-- Fold version of `OnDataRecv_preserve` over a delivery burst. -/
theorem runRecv_preserve (msgs : List struct_message) (st : HubState) (i : Nat)
    (h : ∀ m ∈ msgs, ¬(m.id = (i : Int) ∧ 2 ≤ m.id ∧ m.id ≤ 10 ∧ m.rssi < 0)) :
    (runRecv st msgs).nodeSignals i = st.nodeSignals i ∧
      (runRecv st msgs).nodeMacs i = st.nodeMacs i := by
  induction msgs generalizing st with
  | nil => exact ⟨rfl, rfl⟩
  | cons m ms ih =>
    have h1 := OnDataRecv_preserve st m i (h m (by simp))
    have h2 := ih (OnDataRecv st m) (fun m' hm' => h m' (by simp [hm']))
    exact ⟨h2.1.trans h1.1, h2.2.trans h1.2⟩

/-- Address-slot well-formedness: each stored address is the sentinel or
canonical colon-hex (spec wording, `isCanonicalMac`). -/
def macsWellFormed (st : HubState) : Prop :=
  ∀ i : Nat, st.nodeMacs i = "00:00:00:00:00:00" ∨ isCanonicalMac (st.nodeMacs i) = true

/-- The handler preserves address well-formedness when the delivered
record's embedded address is canonical. -/
theorem OnDataRecv_macsWellFormed (st : HubState) (m : struct_message)
    (hst : macsWellFormed st) (hm : isCanonicalMac m.mac = true) :
    macsWellFormed (OnDataRecv st m) := by
  unfold OnDataRecv
  split
  · split
    · intro i
      by_cases hi : i = m.id.toNat
      · right
        simpa [hi] using hm
      · simpa [hi] using hst i
    · exact hst
  · exact hst

/-- Fold version of `OnDataRecv_macsWellFormed`. -/
theorem runRecv_macsWellFormed (msgs : List struct_message) (st : HubState)
    (hst : macsWellFormed st) (hmsgs : ∀ m ∈ msgs, isCanonicalMac m.mac = true) :
    macsWellFormed (runRecv st msgs) := by
  induction msgs generalizing st with
  | nil => exact hst
  | cons m ms ih =>
    exact ih (OnDataRecv st m)
      (OnDataRecv_macsWellFormed st m hst (hmsgs m (by simp)))
      (fun m' hm' => hmsgs m' (by simp [hm']))

/-- Reading fields of the output, for identities 2..10: logical field
`2*i-1` is the rendered reading of slot `i`, field `2*i` its address. -/
theorem outputFields_getD (st : HubState) (r : Int) (ownMac : String) (i : Nat)
    (h2 : 2 ≤ i) (h10 : i ≤ 10) :
    (outputFields st r ownMac).getD (2 * i - 1) "" = toString (st.nodeSignals i) ∧
      (outputFields st r ownMac).getD (2 * i) "" = st.nodeMacs i := by
  interval_cases i <;> exact ⟨rfl, rfl⟩

/-- Scenario B wire payload: `{id = 5, rssi = -42, mac = "AA:BB:CC:DD:EE:FF"}`
laid out as 4-byte little-endian id, 4-byte little-endian two's-complement
rssi, 18-byte NUL-terminated address string. -/
def scenarioBpayload : List Nat :=
  [5, 0, 0, 0,
   214, 255, 255, 255,
   65, 65, 58, 66, 66, 58, 67, 67, 58, 68, 68, 58, 69, 69, 58, 70, 70, 0]

example : decodeMessage scenarioBpayload = ⟨5, -42, "AA:BB:CC:DD:EE:FF"⟩ := by decide
example : scenarioBpayload.length = 26 := by decide

/-- Payload whose embedded address bytes spell `"HELLO,WORLD"` — valid id 5
and reading -42, but an address that is neither canonical nor comma-free. -/
def helloPayload : List Nat :=
  [5, 0, 0, 0,
   214, 255, 255, 255,
   72, 69, 76, 76, 79, 44, 87, 79, 82, 76, 68, 0, 0, 0, 0, 0, 0, 0]

example : decodeMessage helloPayload = ⟨5, -42, "HELLO,WORLD"⟩ := by decide

/-! ### Claims -/

/-- C2: a delivered record whose NodeIdentity is outside [2,10] (0, 1, or
greater than 10 — or negative) leaves every slot of the aggregation table
(both `nodeSignals` and `nodeMacs`) exactly as it was: the receive
handler returns the table unchanged. -/
theorem C2_invalid_identity_no_mutation (st : HubState) (sender payload : List Nat)
    (len : Nat)
    (h : (decodeMessage payload).id < 2 ∨ 10 < (decodeMessage payload).id) :
    OnDataRecvRaw st sender payload len = st := by
  unfold OnDataRecvRaw OnDataRecv
  split
  · next hc =>
    obtain ⟨ha, hb⟩ := hc
    rcases h with h | h <;> omega
  · rfl

/-- Witness for C2 at the all-zero 26-byte payload (decoded id 0). -/
theorem C2_invalid_identity_no_mutation_witness :
    ((decodeMessage (List.replicate 26 0)).id < 2 ∨
        10 < (decodeMessage (List.replicate 26 0)).id) ∧
      OnDataRecvRaw initHub [1, 2, 3, 4, 5, 6] (List.replicate 26 0) 26 = initHub :=
  ⟨by decide,
    C2_invalid_identity_no_mutation initHub [1, 2, 3, 4, 5, 6] (List.replicate 26 0) 26
      (by decide)⟩

/-- C3 counterexample: the claim requires a reading outside [-100, 0]
(for example -150) to be rejected with the table unchanged, but the code
only tests `rssi < 0`: delivering `{id = 5, rssi = -150, ...}` overwrites
slot 5 with -150, so the table does change. -/
theorem C3_out_of_domain_counterexample :
    (OnDataRecv initHub ⟨5, -150, "AA:BB:CC:DD:EE:FF"⟩).nodeSignals 5 = -150 ∧
      initHub.nodeSignals 5 = -100 ∧
      OnDataRecv initHub ⟨5, -150, "AA:BB:CC:DD:EE:FF"⟩ ≠ initHub :=
  ⟨by decide, by decide,
    fun he => absurd (congrArg (fun s => s.nodeSignals 5) he) (by decide)⟩

/-- C3 (amended): for NodeIdentity in [2,10] the handler rejects the
record (table unchanged) exactly when the reading is non-negative, and
accepts any strictly negative reading — including ones below -100 —
overwriting slot `id` with the reading and embedded address and leaving
all other slots unchanged. -/
theorem C3_reject_nonnegative_accept_negative (st : HubState) (m : struct_message)
    (h2 : 2 ≤ m.id) (h10 : m.id ≤ 10) :
    (0 ≤ m.rssi → OnDataRecv st m = st) ∧
      (m.rssi < 0 →
        (OnDataRecv st m).nodeSignals m.id.toNat = m.rssi ∧
          (OnDataRecv st m).nodeMacs m.id.toNat = m.mac ∧
          ∀ j : Nat, j ≠ m.id.toNat →
            (OnDataRecv st m).nodeSignals j = st.nodeSignals j ∧
              (OnDataRecv st m).nodeMacs j = st.nodeMacs j) := by
  constructor
  · intro hr
    unfold OnDataRecv
    rw [if_pos ⟨h2, h10⟩, if_neg (by omega)]
  · intro hr
    unfold OnDataRecv
    rw [if_pos ⟨h2, h10⟩, if_pos hr]
    exact ⟨by simp, by simp, fun j hj => ⟨by simp [hj], by simp [hj]⟩⟩

/-- Witness for the amended C3 at `{id = 5, rssi = -150}`. -/
theorem C3_reject_nonnegative_accept_negative_witness :
    (2 ≤ (⟨5, -150, "AA:BB:CC:DD:EE:FF"⟩ : struct_message).id) ∧
      ((⟨5, -150, "AA:BB:CC:DD:EE:FF"⟩ : struct_message).id ≤ 10) ∧
      ((0 ≤ (⟨5, -150, "AA:BB:CC:DD:EE:FF"⟩ : struct_message).rssi →
          OnDataRecv initHub ⟨5, -150, "AA:BB:CC:DD:EE:FF"⟩ = initHub) ∧
        ((⟨5, -150, "AA:BB:CC:DD:EE:FF"⟩ : struct_message).rssi < 0 →
          (OnDataRecv initHub ⟨5, -150, "AA:BB:CC:DD:EE:FF"⟩).nodeSignals
              (⟨5, -150, "AA:BB:CC:DD:EE:FF"⟩ : struct_message).id.toNat =
            (⟨5, -150, "AA:BB:CC:DD:EE:FF"⟩ : struct_message).rssi ∧
            (OnDataRecv initHub ⟨5, -150, "AA:BB:CC:DD:EE:FF"⟩).nodeMacs
                (⟨5, -150, "AA:BB:CC:DD:EE:FF"⟩ : struct_message).id.toNat =
              (⟨5, -150, "AA:BB:CC:DD:EE:FF"⟩ : struct_message).mac ∧
            ∀ j : Nat, j ≠ (⟨5, -150, "AA:BB:CC:DD:EE:FF"⟩ : struct_message).id.toNat →
              (OnDataRecv initHub ⟨5, -150, "AA:BB:CC:DD:EE:FF"⟩).nodeSignals j =
                  initHub.nodeSignals j ∧
                (OnDataRecv initHub ⟨5, -150, "AA:BB:CC:DD:EE:FF"⟩).nodeMacs j =
                  initHub.nodeMacs j)) :=
  ⟨by decide, by decide,
    C3_reject_nonnegative_accept_negative initHub ⟨5, -150, "AA:BB:CC:DD:EE:FF"⟩
      (by decide) (by decide)⟩

/-- C10: the receive handler's effect on the table depends only on the
delivered payload bytes, never on the sender hardware address (the
`mac_addr` argument) or the reported length: two deliveries of the same
payload from different senders yield identical tables, and the address
recorded on acceptance is the one embedded in the payload — so any
sender can write any identity's slot. -/
theorem C10_sender_independent (st : HubState) (sender1 sender2 payload : List Nat)
    (len1 len2 : Nat) :
    OnDataRecvRaw st sender1 payload len1 = OnDataRecvRaw st sender2 payload len2 ∧
      (2 ≤ (decodeMessage payload).id → (decodeMessage payload).id ≤ 10 →
        (decodeMessage payload).rssi < 0 →
        (OnDataRecvRaw st sender1 payload len1).nodeMacs
            (decodeMessage payload).id.toNat = (decodeMessage payload).mac) := by
  refine ⟨rfl, fun h2 h10 hr => ?_⟩
  unfold OnDataRecvRaw OnDataRecv
  rw [if_pos ⟨h2, h10⟩, if_pos hr]
  simp

/-- Witness for C10: the Scenario B payload delivered from two different
sender addresses. -/
theorem C10_sender_independent_witness :
    (2 ≤ (decodeMessage scenarioBpayload).id) ∧
      ((decodeMessage scenarioBpayload).id ≤ 10) ∧
      ((decodeMessage scenarioBpayload).rssi < 0) ∧
      (OnDataRecvRaw initHub [1, 2, 3, 4, 5, 6] scenarioBpayload 26 =
          OnDataRecvRaw initHub [9, 9, 9, 9, 9, 9] scenarioBpayload 26 ∧
        (2 ≤ (decodeMessage scenarioBpayload).id →
          (decodeMessage scenarioBpayload).id ≤ 10 →
          (decodeMessage scenarioBpayload).rssi < 0 →
          (OnDataRecvRaw initHub [1, 2, 3, 4, 5, 6] scenarioBpayload 26).nodeMacs
              (decodeMessage scenarioBpayload).id.toNat =
            (decodeMessage scenarioBpayload).mac)) :=
  ⟨by decide, by decide, by decide,
    C10_sender_independent initHub [1, 2, 3, 4, 5, 6] [9, 9, 9, 9, 9, 9]
      scenarioBpayload 26 26⟩

/-- C6 counterexample: a 30-byte payload (neither the 26 bytes of the
packed field layout nor the 28 bytes of the padded C struct) whose
leading bytes decode to the valid record `{id = 5, rssi = -42, ...}` is
*not* rejected: the handler never inspects `len`, and the table changes. -/
theorem C6_wrong_size_counterexample :
    (scenarioBpayload ++ [0, 0, 0, 0]).length = 30 ∧
      OnDataRecvRaw initHub [0, 0, 0, 0, 0, 0] (scenarioBpayload ++ [0, 0, 0, 0]) 30 ≠
        initHub ∧
      (OnDataRecvRaw initHub [0, 0, 0, 0, 0, 0]
            (scenarioBpayload ++ [0, 0, 0, 0]) 30).nodeSignals 5 = -42 :=
  ⟨by decide,
    fun he => absurd (congrArg (fun s => s.nodeSignals 5) he) (by decide),
    by decide⟩

/-- C6 (amended): the receive handler performs no size check at all — it
copies the fixed-size record out of whatever payload arrives, so its
effect depends only on the reported-length argument not at all and only
on the first 26 payload bytes; a wrong-size payload whose leading bytes
form a valid record does update the table (size filtering is delegated
to the platform layer, which the handler assumes). -/
theorem C6_no_size_check (st : HubState) (sender p junk : List Nat) (len1 len2 : Nat)
    (h : 26 ≤ p.length) :
    OnDataRecvRaw st sender (p ++ junk) len1 = OnDataRecvRaw st sender p len2 := by
  unfold OnDataRecvRaw
  have hbyte : ∀ i : Nat, i < 26 → byteAt (p ++ junk) i = byteAt p i := by
    intro i hi
    exact List.getD_append _ _ _ _ (by omega)
  have hdrop : (p ++ junk).drop 8 = p.drop 8 ++ junk :=
    List.drop_append_of_le_length (by omega)
  have htake : ((p ++ junk).drop 8).take 18 = (p.drop 8).take 18 := by
    rw [hdrop]
    exact List.take_append_of_le_length (by simp; omega)
  congr 1
  unfold decodeMessage decodeI32 decodeMac
  rw [htake, hbyte 0 (by omega), hbyte 1 (by omega), hbyte 2 (by omega),
    hbyte 3 (by omega), hbyte 4 (by omega), hbyte 5 (by omega), hbyte 6 (by omega),
    hbyte 7 (by omega)]

/-- Witness for the amended C6: appending 4 junk bytes to the Scenario B
payload leaves the handler's effect unchanged. -/
theorem C6_no_size_check_witness :
    (26 ≤ scenarioBpayload.length) ∧
      OnDataRecvRaw initHub [0, 0, 0, 0, 0, 0] (scenarioBpayload ++ [7, 7, 7, 7]) 30 =
        OnDataRecvRaw initHub [0, 0, 0, 0, 0, 0] scenarioBpayload 26 :=
  ⟨by decide,
    C6_no_size_check initHub [0, 0, 0, 0, 0, 0] scenarioBpayload [7, 7, 7, 7] 30 26
      (by decide)⟩

/-- C7: each satellite cycle makes exactly one send attempt (no retry
within the cycle), addressed to the configured hub, carrying the node's
static `NODE_ID` and its own address, with reading equal to the first
(strongest) scan entry when the scan is non-empty and the sentinel -100
when it is empty. -/
theorem C7_one_send_strongest (scan : List Int) (ownMac : String) :
    ((satelliteLoopBody scan ownMac).filter SatAction.isSend).length = 1 ∧
      ∀ dest payload, SatAction.send dest payload ∈ satelliteLoopBody scan ownMac →
        dest = collectorMAC ∧
          payload.id = NODE_ID ∧
          payload.mac = toCharArray17 ownMac ∧
          (scan = [] → payload.rssi = -100) ∧
          ∀ r rest, scan = r :: rest → payload.rssi = r := by
  constructor
  · rfl
  · intro dest payload hmem
    have h1 : SatAction.send dest payload =
        SatAction.send collectorMAC
          ⟨NODE_ID, if scan.length > 0 then scan.getD 0 (-100) else -100,
            toCharArray17 ownMac⟩ := by
      rcases List.mem_cons.mp hmem with h | h
      · exact h
      · rcases List.mem_cons.mp h with h' | h'
        · cases h'
        · cases h'
    injection h1 with hdest hpayload
    subst hdest hpayload
    refine ⟨rfl, rfl, rfl, fun hs => by simp [hs], fun r rest hs => by simp [hs]⟩

/-- Witness for C7 at the scan `[-30, -60]`. -/
theorem C7_one_send_strongest_witness :
    (SatAction.send collectorMAC ⟨NODE_ID, -30, toCharArray17 "DE:AD:BE:EF:00:01"⟩ ∈
        satelliteLoopBody [-30, -60] "DE:AD:BE:EF:00:01") ∧
      (((satelliteLoopBody [-30, -60] "DE:AD:BE:EF:00:01").filter
          SatAction.isSend).length = 1) ∧
      (⟨NODE_ID, -30, toCharArray17 "DE:AD:BE:EF:00:01"⟩ : struct_message).rssi = -30 :=
  ⟨by decide,
    (C7_one_send_strongest [-30, -60] "DE:AD:BE:EF:00:01").1,
    ((C7_one_send_strongest [-30, -60] "DE:AD:BE:EF:00:01").2 collectorMAC
          ⟨NODE_ID, -30, toCharArray17 "DE:AD:BE:EF:00:01"⟩ (by decide)).2.2.2.2
      (-30) [-60] rfl⟩

/-- C4 counterexample: the claim says a cycle that finds the target label
with reading -50 writes (-50, own address) into table slot 1, but the
code keeps `baseRSSI` in a local variable and never writes `nodeSignals[1]`
or `nodeMacs[1]`: after such a cycle slot 1 still holds the initial
sentinel -100, not -50. -/
theorem C4_slot1_not_written_counterexample :
    scanBaseRSSI [("XXX", -50)] = -50 ∧
      ((hubCycle initHub [("XXX", -50)] "DE:AD:BE:EF:00:01").2).nodeSignals 1 = -100 ∧
      ((hubCycle initHub [("XXX", -50)] "DE:AD:BE:EF:00:01").2).nodeSignals 1 ≠ -50 := by
  decide

/-- C4 (amended): each cycle computes the pair (r, own address) — r the
reading of the first scan entry whose label equals the target label, the
sentinel -100 if none — and splices it directly into the output at
identity 1's fields; the table itself is never mutated by the cycle (the
state after a cycle is the state before it), and the receive handler
never touches slot 1 either, so slot 1 keeps its initialization value
forever and is never read. -/
theorem C4_slot1_fields_from_scan (st : HubState) (scan : List (String × Int))
    (ownMac : String) (m : struct_message) :
    (hubCycle st scan ownMac).2 = st ∧
      (hubCycle st scan ownMac).1 =
        joinFields (outputFields st (scanBaseRSSI scan) ownMac) ∧
      (outputFields st (scanBaseRSSI scan) ownMac).getD 1 "" =
        toString (scanBaseRSSI scan) ∧
      (outputFields st (scanBaseRSSI scan) ownMac).getD 2 "" = ownMac ∧
      (OnDataRecv st m).nodeSignals 1 = st.nodeSignals 1 ∧
      (OnDataRecv st m).nodeMacs 1 = st.nodeMacs 1 :=
  ⟨rfl, outputLine_eq_joinFields st (scanBaseRSSI scan) ownMac, rfl, rfl,
    (OnDataRecv_preserve st m 1 (by rintro ⟨he, hb, -, -⟩; omega)).1,
    (OnDataRecv_preserve st m 1 (by rintro ⟨he, hb, -, -⟩; omega)).2⟩

/-- Every line of a hub run starting from a table whose slot `i` holds
the sentinel pair keeps the sentinel pair at identity `i`'s output
fields, as long as no delivered record validly claims identity `i`. -/
theorem hubRunAux_sentinel (i : Nat) (h2 : 2 ≤ i) (h10 : i ≤ 10) (ownMac : String) :
    ∀ (events : List (List struct_message × List (String × Int))) (st : HubState),
      st.nodeSignals i = -100 → st.nodeMacs i = "00:00:00:00:00:00" →
      (∀ e ∈ events, ∀ m ∈ e.1, ¬(m.id = (i : Int) ∧ m.rssi < 0)) →
      ∀ line ∈ hubRunAux true ownMac st events,
        ∃ fs : List String, line = joinFields fs ∧ fs.length = 21 ∧
          fs.getD (2 * i - 1) "" = "-100" ∧ fs.getD (2 * i) "" = "00:00:00:00:00:00" := by
  intro events
  induction events with
  | nil => intro st _ _ _ line hline; cases hline
  | cons e rest ih =>
    obtain ⟨msgs, scan⟩ := e
    intro st hsig hmac hno line hline
    have hpres := runRecv_preserve msgs st i
      (fun m hm => by
        rintro ⟨he, -, -, hr⟩
        exact hno (msgs, scan) (by simp) m hm ⟨he, hr⟩)
    have hsig' : (runRecv st msgs).nodeSignals i = -100 := hpres.1.trans hsig
    have hmac' : (runRecv st msgs).nodeMacs i = "00:00:00:00:00:00" := hpres.2.trans hmac
    rcases List.mem_cons.mp hline with h | h
    · refine ⟨outputFields (runRecv st msgs) (scanBaseRSSI scan) ownMac,
        ?_, outputFields_length _ _ _, ?_, ?_⟩
      · rw [h]
        exact outputLine_eq_joinFields _ _ _
      · rw [(outputFields_getD _ _ ownMac i h2 h10).1, hsig']
        decide
      · rw [(outputFields_getD _ _ ownMac i h2 h10).2, hmac']
    · exact ih (runRecv st msgs) hsig' hmac'
        (fun e' he' => hno e' (by simp [he'])) line h

/-- C5: immediately after hub initialization, slots 2..10 of the table
hold the sentinel pair (-100, "00:00:00:00:00:00"), and for each such
identity `i` every emitted output line carries that sentinel pair at
identity `i`'s two fields for as long as no delivered record validly
claims identity `i` (any run whose deliveries contain no accepted record
for `i`). -/
theorem C5_sentinel_until_first_valid (i : Nat) (h2 : 2 ≤ i) (h10 : i ≤ 10)
    (events : List (List struct_message × List (String × Int))) (ownMac : String)
    (hno : ∀ e ∈ events, ∀ m ∈ e.1, ¬(m.id = (i : Int) ∧ m.rssi < 0)) :
    (initHub.nodeSignals i = -100 ∧ initHub.nodeMacs i = "00:00:00:00:00:00") ∧
      ∀ line ∈ hubRun true events ownMac,
        ∃ fs : List String, line = joinFields fs ∧ fs.length = 21 ∧
          fs.getD (2 * i - 1) "" = "-100" ∧ fs.getD (2 * i) "" = "00:00:00:00:00:00" :=
  ⟨⟨rfl, rfl⟩, hubRunAux_sentinel i h2 h10 ownMac events initHub rfl rfl hno⟩

/-- Witness for C5 at identity 5, with one tick delivering a valid record
for identity 3 only. -/
theorem C5_sentinel_until_first_valid_witness :
    (2 ≤ 5) ∧ (5 ≤ 10) ∧
      (∀ e ∈ ([([⟨3, -60, "AA:BB:CC:DD:EE:FF"⟩], [("XXX", -50)])] :
          List (List struct_message × List (String × Int))),
        ∀ m ∈ e.1, ¬(m.id = ((5 : Nat) : Int) ∧ m.rssi < 0)) ∧
      ((initHub.nodeSignals 5 = -100 ∧ initHub.nodeMacs 5 = "00:00:00:00:00:00") ∧
        ∀ line ∈ hubRun true [([⟨3, -60, "AA:BB:CC:DD:EE:FF"⟩], [("XXX", -50)])]
            "DE:AD:BE:EF:00:01",
          ∃ fs : List String, line = joinFields fs ∧ fs.length = 21 ∧
            fs.getD (2 * 5 - 1) "" = "-100" ∧ fs.getD (2 * 5) "" = "00:00:00:00:00:00") :=
  ⟨by decide, by decide, by decide,
    C5_sentinel_until_first_valid 5 (by decide) (by decide)
      [([⟨3, -60, "AA:BB:CC:DD:EE:FF"⟩], [("XXX", -50)])] "DE:AD:BE:EF:00:01"
      (by decide)⟩

/-- Version of `fieldsOf_joinFields` for any non-empty field list. -/
theorem fieldsOf_joinFields_of_ne_nil (l : List String) (hne : l ≠ [])
    (hl : ∀ f ∈ l, ',' ∉ f.data) : fieldsOf (joinFields l) = l := by
  cases l with
  | nil => exact absurd rfl hne
  | cons x xs =>
    exact fieldsOf_joinFields x xs (hl x (by simp)) (fun f hf => hl f (by simp [hf]))

/-- C1 counterexample: the table state reached by delivering one accepted
record whose embedded address bytes contain a comma is reachable, and the
line emitted from it splits into 22 comma-separated fields, not 21. -/
theorem C1_comma_field_counterexample :
    (fieldsOf
        (hubCycle (OnDataRecvRaw initHub [0, 0, 0, 0, 0, 0] helloPayload 26)
            [] "DE:AD:BE:EF:00:01").1).length = 22 := by
  decide

/-- C1 (amended): every emitted line is the comma-join of exactly 21
logical fields — the literal tag `DATA`, then for each identity 1..10 in
order a reading field and an address field, identity 1's pair being the
fresh scan result and the hub's own address rather than table slot 1 —
and comma-splitting the line recovers exactly those 21 fields whenever
every field is comma-free (integer reading fields always are; address
fields are whenever senders put comma-free strings in the mac bytes).
In particular, after the valid record {id = 5, rssi = -42,
mac = "AA:BB:CC:DD:EE:FF"} is accepted, the next emitted line has "-42"
at comma-field 9 and "AA:BB:CC:DD:EE:FF" at comma-field 10. -/
theorem C1_output_record_fields :
    (∀ (st : HubState) (scan : List (String × Int)) (ownMac : String),
      (hubCycle st scan ownMac).1 =
          joinFields (outputFields st (scanBaseRSSI scan) ownMac) ∧
        (outputFields st (scanBaseRSSI scan) ownMac).length = 21 ∧
        ((∀ f ∈ outputFields st (scanBaseRSSI scan) ownMac, ',' ∉ f.data) →
          fieldsOf (hubCycle st scan ownMac).1 =
            outputFields st (scanBaseRSSI scan) ownMac)) ∧
      ((fieldsOf
            (hubCycle (OnDataRecvRaw initHub [0, 0, 0, 0, 0, 0] scenarioBpayload 26)
                [("XXX", -70)] "DE:AD:BE:EF:00:01").1).length = 21 ∧
        (fieldsOf
            (hubCycle (OnDataRecvRaw initHub [0, 0, 0, 0, 0, 0] scenarioBpayload 26)
                [("XXX", -70)] "DE:AD:BE:EF:00:01").1).getD 9 "" = "-42" ∧
        (fieldsOf
            (hubCycle (OnDataRecvRaw initHub [0, 0, 0, 0, 0, 0] scenarioBpayload 26)
                [("XXX", -70)] "DE:AD:BE:EF:00:01").1).getD 10 "" =
          "AA:BB:CC:DD:EE:FF") := by
  constructor
  · intro st scan ownMac
    refine ⟨outputLine_eq_joinFields _ _ _, outputFields_length _ _ _, fun hcf => ?_⟩
    have h21 := outputFields_length st (scanBaseRSSI scan) ownMac
    rw [show (hubCycle st scan ownMac).1 = outputLine st (scanBaseRSSI scan) ownMac
        from rfl,
      outputLine_eq_joinFields]
    refine fieldsOf_joinFields_of_ne_nil _ (fun hnil => ?_) hcf
    rw [hnil] at h21
    cases h21
  · exact ⟨by decide, by decide, by decide⟩

/-- Witness for the amended C1: from the freshly initialized table, the
comma-free-fields hypothesis holds concretely and comma-splitting the
emitted line recovers the 21 logical fields. -/
theorem C1_output_record_fields_witness :
    (∀ f ∈ outputFields initHub (scanBaseRSSI []) "DE:AD:BE:EF:00:01", ',' ∉ f.data) ∧
      fieldsOf (hubCycle initHub [] "DE:AD:BE:EF:00:01").1 =
        outputFields initHub (scanBaseRSSI []) "DE:AD:BE:EF:00:01" :=
  ⟨by decide,
    (C1_output_record_fields.1 initHub [] "DE:AD:BE:EF:00:01").2.2 (by decide)⟩

/-- C8 counterexample: the claim requires every address field of every
emitted record to be the all-zero sentinel or canonical colon-hex even
for arbitrary embedded mac bytes, but delivering the (accepted) record
whose mac bytes spell "HELLO,WORLD" puts that raw string into slot 5 and
into identity 5's address field of the next record. -/
theorem C8_arbitrary_mac_counterexample :
    (OnDataRecvRaw initHub [0, 0, 0, 0, 0, 0] helloPayload 26).nodeMacs 5 =
        "HELLO,WORLD" ∧
      (outputFields (OnDataRecvRaw initHub [0, 0, 0, 0, 0, 0] helloPayload 26)
          (scanBaseRSSI []) "DE:AD:BE:EF:00:01").getD 10 "" = "HELLO,WORLD" ∧
      isCanonicalMac "HELLO,WORLD" = false ∧
      "HELLO,WORLD" ≠ "00:00:00:00:00:00" := by
  decide

/-- C8 (amended): each stored address — and hence each address field of
an emitted record, which equals the stored string for identities 2..10 —
is either the all-zero sentinel or the exact string embedded in the most
recently accepted record; the hub performs no format validation, so the
canonical colon-hex shape holds exactly when every delivered record
carries a canonical address (as the satellite code's own sends do). -/
theorem C8_address_fields_when_senders_canonical (msgs : List struct_message)
    (hmsgs : ∀ m ∈ msgs, isCanonicalMac m.mac = true) (i : Nat) (h2 : 2 ≤ i)
    (h10 : i ≤ 10) (r : Int) (ownMac : String) :
    ((runRecv initHub msgs).nodeMacs i = "00:00:00:00:00:00" ∨
        isCanonicalMac ((runRecv initHub msgs).nodeMacs i) = true) ∧
      (outputFields (runRecv initHub msgs) r ownMac).getD (2 * i) "" =
        (runRecv initHub msgs).nodeMacs i :=
  ⟨runRecv_macsWellFormed msgs initHub (fun _ => Or.inl rfl) hmsgs i,
    (outputFields_getD _ r ownMac i h2 h10).2⟩

/-- Witness for the amended C8 at one canonical delivery for identity 5. -/
theorem C8_address_fields_when_senders_canonical_witness :
    (∀ m ∈ ([⟨5, -42, "AA:BB:CC:DD:EE:FF"⟩] : List struct_message),
        isCanonicalMac m.mac = true) ∧
      (2 ≤ 5) ∧ (5 ≤ 10) ∧
      (((runRecv initHub [⟨5, -42, "AA:BB:CC:DD:EE:FF"⟩]).nodeMacs 5 =
            "00:00:00:00:00:00" ∨
          isCanonicalMac
              ((runRecv initHub [⟨5, -42, "AA:BB:CC:DD:EE:FF"⟩]).nodeMacs 5) = true) ∧
        (outputFields (runRecv initHub [⟨5, -42, "AA:BB:CC:DD:EE:FF"⟩]) (-100)
            "DE:AD:BE:EF:00:01").getD (2 * 5) "" =
          (runRecv initHub [⟨5, -42, "AA:BB:CC:DD:EE:FF"⟩]).nodeMacs 5) :=
  ⟨by decide, by decide, by decide,
    C8_address_fields_when_senders_canonical [⟨5, -42, "AA:BB:CC:DD:EE:FF"⟩]
      (by decide) 5 (by decide) (by decide) (-100) "DE:AD:BE:EF:00:01"⟩

/-- C9: evaluation of the code at the failing input (`esp_now_init()`
returns nonzero).  The claim — and the spec — say the device halts its
telemetry loop role, but `setup()`'s early `return` only skips the rest
of `setup()`: the Arduino runtime still invokes `loop()` forever, so the
Hub keeps scanning and emitting lines (built from the never-initialized
table: readings 0 and empty address strings) and the Satellite keeps
scanning and attempting one send per cycle. -/
theorem C9_failed_init_loop_still_runs :
    hubRun false [([], [])] "DE:AD:BE:EF:00:01" =
        ["DATA,-100,DE:AD:BE:EF:00:01,0,,0,,0,,0,,0,,0,,0,,0,,0,"] ∧
      (satRun false [[-30]] "DE:AD:BE:EF:00:01").length = 1 ∧
      SatAction.send collectorMAC ⟨9, -30, toCharArray17 "DE:AD:BE:EF:00:01"⟩ ∈
        (satRun false [[-30]] "DE:AD:BE:EF:00:01").flatten := by
  refine ⟨?_, rfl, by decide⟩
  decide

